import Mathlib

/-!
Verification of the time-block layout engine of the movebuddy repository
(`src/modules/leads/LeadManagement.tsx`, the `Calendar` component).

Modelling conventions:

* Timestamps are integers: minutes relative to midnight of the displayed day.
  Every reachable block boundary is a whole minute (`getTimeFromPosition`
  zeroes seconds and milliseconds, every other update adds whole minutes), and
  `Date` arithmetic over uniform days makes `setHours`/`getTime` offsets agree
  with plain minute arithmetic.
* Pointer coordinates and pixel geometry are integers (whole CSS pixels).
* Every rounding in the source is JS `Math.round` applied to an exact ratio
  `a / b` of integers with `b > 0`.  `Math.round x = ⌊x + 1/2⌋` (round half
  toward positive infinity), so the source's `Math.round(a / b)` is embedded
  as the integer computation `jsRoundDiv a b = Int.fdiv (2*a + b) (2*b)`;
  `jsRoundDiv_eq_floor` below proves it equal to `⌊(a : ℚ) / b + 1/2⌋`.
* JS `%` on integers is the truncating remainder `Int.tmod`, and JS
  `Math.floor` of an integer quotient is `Int.fdiv`.
* `Math.random`-generated ids and the grid's bounding rectangle are passed in
  as parameters.
-/

namespace MoveBuddy

/-- JS `Math.round(a / b)` for integers `a`, `b` with `b > 0`:
`⌊a/b + 1/2⌋ = Int.fdiv (2*a + b) (2*b)`. -/
def jsRoundDiv (a b : ℤ) : ℤ := Int.fdiv (2 * a + b) (2 * b)

/-- Source constant `const MINUTES_IN_DAY = 24 * 60`. -/
def MINUTES_IN_DAY : ℤ := 24 * 60

/-- Source constant `const HOUR_HEIGHT = 60`. -/
def HOUR_HEIGHT : ℤ := 60

/-- Source constant `const SNAP_MINUTES = 15`. -/
def SNAP_MINUTES : ℤ := 15

/-- Source constant `const BLOCK_WIDTH = 200`. -/
def BLOCK_WIDTH : ℤ := 200

/-- Source constant `const COLUMN_GAP = 10`. -/
def COLUMN_GAP : ℤ := 10

/-- Source constant `const MAX_COLUMNS = 4`. -/
def MAX_COLUMNS : ℤ := 4

/-- Source constant `const TIME_BLOCK_COLORS = [...]` (five entries). -/
def TIME_BLOCK_COLORS : List String :=
  ["rgba(59, 130, 246, 0.9)",
   "rgba(16, 185, 129, 0.9)",
   "rgba(245, 158, 11, 0.9)",
   "rgba(239, 68, 68, 0.9)",
   "rgba(139, 92, 246, 0.9)"]

/-- Source function `const pixelsToMinutes = (pixels) =>
Math.round((pixels / (24 * HOUR_HEIGHT)) * MINUTES_IN_DAY)`: the exact value
rounded is the ratio `pixels * MINUTES_IN_DAY / (24 * HOUR_HEIGHT)`. -/
def pixelsToMinutes (pixels : ℤ) : ℤ :=
  jsRoundDiv (pixels * MINUTES_IN_DAY) (24 * HOUR_HEIGHT)

/-- Source function `const snapToGrid = (value) => Math.round(value / SNAP_MINUTES) * SNAP_MINUTES`;
every call site passes the integer result of `pixelsToMinutes`. -/
def snapToGrid (value : ℤ) : ℤ :=
  jsRoundDiv value SNAP_MINUTES * SNAP_MINUTES

/-- Source expression `time.setHours(Math.floor(minutes / 60), minutes % 60, 0, 0)` on a copy of
`currentDate`: the resulting timestamp in minutes relative to midnight of the
displayed day.  JS `Math.floor` of the true quotient is floor division and JS
`%` is the truncating remainder. -/
def dateFromMinutes (m : ℤ) : ℤ := 60 * Int.fdiv m 60 + Int.tmod m 60

/-- Source function `getTimeFromPosition(y)`: `relativeY = y - rect.top`, then
`snapToGrid(pixelsToMinutes(relativeY))` written into a copy of the current
date via `setHours`. -/
def getTimeFromPosition (y top : ℤ) : ℤ :=
  dateFromMinutes (snapToGrid (pixelsToMinutes (y - top)))

/-- Source expression `start.getHours() * 60 + start.getMinutes()` for a timestamp `t` in minutes
relative to the displayed day's midnight (uniform days). -/
def minutesSinceMidnight (t : ℤ) : ℤ := Int.emod t 1440

/-- The `prepTime` sub-object of a `TimeBlock`: `{start: Date, duration: number}`
(duration in minutes; `start` in minutes relative to the displayed day). -/
structure PrepTime where
  start : ℤ
  duration : ℤ
deriving DecidableEq, Repr

/-- Source `interface TimeBlock`.  `assignedMovers` is optional in the
source but every constructor (`createBlock`) initialises it to `[]`, so it is
modelled as a plain list. -/
structure TimeBlock where
  id : String
  title : String
  start : ℤ
  «end» : ℤ
  description : Option String
  location : Option String
  color : String
  column : ℤ
  prepTime : Option PrepTime
  assignedMovers : List String
deriving DecidableEq, Repr

/-- Source `interface Mover`. -/
structure Mover where
  id : String
  name : String
  color : String
deriving DecidableEq, Repr

/-- The overlap test inside `findAvailableColumn`:
`blocks.some(block => block.column === col && startTime < block.end && endTime > block.start)`. -/
def hasOverlapInColumn (blocks : List TimeBlock) (col s e : ℤ) : Bool :=
  blocks.any fun b => decide (b.column = col ∧ s < b.«end» ∧ e > b.start)

/-- The `for (let col = 0; col < MAX_COLUMNS; col++)` loop of
`findAvailableColumn`, iterating over the remaining candidate columns; the
loop falls through to `return 0`. -/
def findAvailableColumnGo (blocks : List TimeBlock) (s e : ℤ) : List ℤ → ℤ
  | [] => 0
  | c :: cs =>
      if hasOverlapInColumn blocks c s e = true then findAvailableColumnGo blocks s e cs
      else c

/-- The column indices `0, 1, ..., MAX_COLUMNS - 1` visited by the loop. -/
def columnCandidates : List ℤ :=
  (List.range MAX_COLUMNS.toNat).map fun n => (n : ℤ)

/-- Source function `findAvailableColumn(startTime, endTime)`. -/
def findAvailableColumn (blocks : List TimeBlock) (s e : ℤ) : ℤ :=
  findAvailableColumnGo blocks s e columnCandidates

/-- Source function `createBlock(clickY)`: returns the updated block list.  `dragActive` models
`dragState?.isDragging` (the early `return null`), `newId` the
`Math.random()`-generated id, `gridTop` the grid's bounding-rectangle top used
by `getTimeFromPosition`.  `endTime.setHours(startTime.getHours() + 1)` adds
exactly 60 minutes to the timestamp. -/
def createBlock (blocks : List TimeBlock) (dragActive : Bool) (newId : String)
    (clickY gridTop : ℤ) : List TimeBlock :=
  if dragActive then blocks
  else
    let startTime := getTimeFromPosition clickY gridTop
    let endTime := startTime + 60
    let column := findAvailableColumn blocks startTime endTime
    blocks ++ [{ id := newId
                 title := "New Block"
                 start := startTime
                 «end» := endTime
                 description := none
                 location := none
                 color := TIME_BLOCK_COLORS.getD
                   (blocks.length % TIME_BLOCK_COLORS.length) ""
                 column := column
                 prepTime := none
                 assignedMovers := [] }]

/-- Source function `deleteBlock(blockId)` acting on the block list. -/
def deleteBlock (blocks : List TimeBlock) (blockId : String) : List TimeBlock :=
  blocks.filter fun b => ¬ b.id = blockId

/-- The `dragState.type === 'move'` branch of `handleInteractionMove`.
Parameters mirror the drag state and event geometry: `initialColumn`,
`initialTop` from `dragState` (always set for a move drag), `initialX`,
`initialY` the pointer-down position, `clientX`, `clientY` the current pointer,
`gridTop`, `gridHeight` the grid's bounding rectangle, `elementHeight` the
dragged element's `offsetHeight`.  If no block has the dragged id the handler
returns without changing anything. -/
def moveUpdate (blocks : List TimeBlock) (blockId : String)
    (initialColumn initialTop initialX initialY clientX clientY
     gridTop gridHeight elementHeight : ℤ) : List TimeBlock :=
  match blocks.find? (fun b => b.id == blockId) with
  | none => blocks
  | some block =>
    let deltaY := clientY - initialY
    let deltaX := clientX - initialX
    let columnDelta := jsRoundDiv deltaX (BLOCK_WIDTH + COLUMN_GAP)
    let newColumn := max 0 (min (MAX_COLUMNS - 1) (initialColumn + columnDelta))
    let newTop := max 0 (min (initialTop + deltaY - gridTop)
                             (gridHeight - elementHeight))
    let newStartTime := getTimeFromPosition (newTop + gridTop) gridTop
    let duration := block.«end» - block.start
    blocks.map fun b =>
      if b.id == block.id then
        { b with
          start := newStartTime
          «end» := newStartTime + duration
          column := newColumn
          prepTime := b.prepTime.map fun p =>
            { start := newStartTime - p.duration, duration := p.duration } }
      else b

/-- The `dragState.type === 'resize'` branch of `handleInteractionMove`.
`newEndTime.setMinutes(getMinutes() + durationMinutes)` adds exactly
`durationMinutes` minutes to `b.start`. -/
def resizeUpdate (blocks : List TimeBlock) (blockId : String)
    (initialHeight initialY clientY : ℤ) : List TimeBlock :=
  match blocks.find? (fun b => b.id == blockId) with
  | none => blocks
  | some block =>
    let deltaY := clientY - initialY
    let newHeight := max SNAP_MINUTES (initialHeight + deltaY)
    let durationMinutes := snapToGrid (pixelsToMinutes newHeight)
    blocks.map fun b =>
      if b.id == block.id then { b with «end» := b.start + durationMinutes }
      else b

/-- The `dragState.type === 'prep'` branch of `handleInteractionMove`.
`new Date(b.start.getTime() - newPrepMinutes * 60000)` subtracts exactly
`newPrepMinutes` minutes. -/
def prepUpdate (blocks : List TimeBlock) (blockId : String)
    (initialY clientY : ℤ) : List TimeBlock :=
  match blocks.find? (fun b => b.id == blockId) with
  | none => blocks
  | some block =>
    let deltaY := clientY - initialY
    let maxPrepMinutes := minutesSinceMidnight block.start
    let newPrepMinutes := max 0 (min maxPrepMinutes
                                     (snapToGrid (pixelsToMinutes deltaY)))
    blocks.map fun b =>
      if b.id == block.id then
        if newPrepMinutes = 0 then { b with prepTime := none }
        else { b with prepTime := some { start := b.start - newPrepMinutes
                                         duration := newPrepMinutes } }
      else b

/-- Source function `removeMover(moverId)`, roster half: `movers.filter(m => m.id !== moverId)`. -/
def removeMoverFromRoster (movers : List Mover) (moverId : String) : List Mover :=
  movers.filter fun m => ¬ m.id = moverId

/-- Source function `removeMover(moverId)`, block half:
`blocks.map(block => ({...block, assignedMovers: block.assignedMovers?.filter(id => id !== moverId) || []}))`. -/
def removeMoverFromBlocks (blocks : List TimeBlock) (moverId : String) :
    List TimeBlock :=
  blocks.map fun b =>
    { b with assignedMovers := b.assignedMovers.filter fun i => ¬ i = moverId }

/-- Source function `BlockEditor.toggleMover` as a function on the contents of the
`assignedMovers` array: `indexOf` finds the first occurrence (`-1` when
absent), `push` appends, `splice(index, 1)` removes the first occurrence. -/
def toggleMover (l : List String) (moverId : String) : List String :=
  if moverId ∈ l then l.erase moverId else l ++ [moverId]

/-- The state of an open `BlockEditor` session: the surrounding block list,
the id of the `block` prop captured at mount, and the `formState` draft.

`useState(block)` seeds the draft with the very object stored in the `blocks`
array, and the spreads in `handleInputChange`/`toggleMover` copy the
`assignedMovers` *reference*, so throughout a session the draft's
`assignedMovers` array is the same array object as the one inside the block in
`blocks`. -/
structure EditorState where
  blocks : List TimeBlock
  blockId : String
  draft : TimeBlock
deriving DecidableEq, Repr

/-- Mounting `BlockEditor` on `block`: `useState(block)`. -/
def openEditor (blocks : List TimeBlock) (b : TimeBlock) : EditorState :=
  { blocks := blocks, blockId := b.id, draft := b }

/-- One draft edit: `handleInputChange` on the `title`, `location` or
`description` input, or a `toggleMover` click. -/
inductive EditorEdit where
  | setTitle (v : String)
  | setLocation (v : String)
  | setDescription (v : String)
  | toggleMoverEdit (moverId : String)
deriving DecidableEq, Repr

/-- Applying one draft edit.  `handleInputChange` replaces a scalar field of
the draft only.  `toggleMover` computes `newAssignedMovers` by mutating the
`formState.assignedMovers` array **in place** (`push`/`splice`); since that is
the same array object as the one held by the block inside `blocks` (see
`EditorState`), the new contents are visible both through the draft and
through the block list. -/
def applyEdit (st : EditorState) : EditorEdit → EditorState
  | .setTitle v => { st with draft := { st.draft with title := v } }
  | .setLocation v => { st with draft := { st.draft with location := some v } }
  | .setDescription v =>
      { st with draft := { st.draft with description := some v } }
  | .toggleMoverEdit moverId =>
      let newAssignedMovers := toggleMover st.draft.assignedMovers moverId
      { blocks := st.blocks.map fun b =>
          if b.id = st.blockId then { b with assignedMovers := newAssignedMovers }
          else b
        blockId := st.blockId
        draft := { st.draft with assignedMovers := newAssignedMovers } }

/-- A sequence of draft edits. -/
def applyEdits (st : EditorState) (es : List EditorEdit) : EditorState :=
  es.foldl applyEdit st

/-- Source: `handleClose(true)` ("Done"): `setBlocks(prev => prev.map(b => b.id === block.id ? {...formState} : b))`. -/
def editorDone (st : EditorState) : List TimeBlock :=
  st.blocks.map fun b => if b.id = st.blockId then st.draft else b

/-- Source: `handleClose(false)` ("Cancel"/close): only `setEditingBlock(null)`; the
block list is whatever it has become. -/
def editorCancel (st : EditorState) : List TimeBlock :=
  st.blocks

/-- Two same-column blocks must not overlap: the per-lane invariant from the
spec, as a pairwise relation on the block list. -/
def laneDisjoint (a b : TimeBlock) : Prop :=
  a.column = b.column → ¬ (a.start < b.«end» ∧ b.start < a.«end»)

instance : DecidableRel laneDisjoint := fun a b => by
  unfold laneDisjoint; infer_instance

/-- The spec invariant: any two blocks assigned the same column have
non-overlapping `[start, end)` intervals. -/
def laneInvariant (blocks : List TimeBlock) : Prop :=
  blocks.Pairwise laneDisjoint

instance : DecidablePred laneInvariant := fun blocks => by
  unfold laneInvariant; infer_instance

/-- Sanity: `jsRoundDiv a b` is exactly `Math.round` of the true ratio `a / b`
for positive `b`, with `Math.round x = ⌊x + 1/2⌋`. -/
theorem jsRoundDiv_eq_floor (a b : ℤ) (hb : 0 < b) :
    jsRoundDiv a b = ⌊(a : ℚ) / (b : ℚ) + 1/2⌋ := by
  have hd : (((2 * b).toNat : ℕ) : ℚ) = ((2 * b : ℤ) : ℚ) := by
    exact_mod_cast Int.toNat_of_nonneg (show (0:ℤ) ≤ 2 * b by omega)
  have hbq : (b : ℚ) ≠ 0 := by
    exact_mod_cast hb.ne.symm
  have h1 : (a : ℚ) / (b : ℚ) + 1/2
      = ((2 * a + b : ℤ) : ℚ) / (((2 * b).toNat : ℕ) : ℚ) := by
    rw [hd]
    push_cast
    field_simp
    ring
  rw [jsRoundDiv, Int.fdiv_eq_ediv _ (by omega), h1,
    Rat.floor_intCast_div_natCast, Int.toNat_of_nonneg (by omega)]

/-- The grid is `24 * HOUR_HEIGHT = 1440` pixels tall for `1440` minutes, so
`pixelsToMinutes` is the identity on whole pixels. -/
theorem pixelsToMinutes_id (p : ℤ) : pixelsToMinutes p = p := by
  unfold pixelsToMinutes jsRoundDiv MINUTES_IN_DAY HOUR_HEIGHT
  rw [Int.fdiv_eq_ediv _ (by omega)]
  omega

/-- For a nonnegative minute count, `setHours(Math.floor(m / 60), m % 60)` on
midnight lands on exactly `m` minutes past midnight. -/
theorem dateFromMinutes_of_nonneg (m : ℤ) (h : 0 ≤ m) : dateFromMinutes m = m := by
  unfold dateFromMinutes
  rw [Int.fdiv_eq_ediv _ (by omega : (0:ℤ) ≤ 60),
    Int.tmod_eq_emod h (by omega : (0:ℤ) ≤ 60)]
  omega

theorem snapToGrid_nonneg (v : ℤ) (h : 0 ≤ v) : 0 ≤ snapToGrid v := by
  unfold snapToGrid jsRoundDiv SNAP_MINUTES
  rw [Int.fdiv_eq_ediv _ (by omega)]
  have h2 : 0 ≤ (2 * v + 15) / (2 * 15) := Int.ediv_nonneg (by omega) (by omega)
  omega

theorem snapToGrid_mono : Monotone snapToGrid := by
  intro a b h
  unfold snapToGrid jsRoundDiv SNAP_MINUTES
  rw [Int.fdiv_eq_ediv _ (by omega), Int.fdiv_eq_ediv _ (by omega)]
  have h2 := Int.ediv_le_ediv (show (0:ℤ) < 2 * 15 by omega)
    (show 2 * a + 15 ≤ 2 * b + 15 by omega)
  omega

/-- For clicks inside the grid (`y` at or below the grid top), the created
time is the snapped pixel-to-minute conversion of the offset from the top. -/
theorem getTimeFromPosition_of_nonneg (y top : ℤ) (h : 0 ≤ y - top) :
    getTimeFromPosition y top = snapToGrid (pixelsToMinutes (y - top)) := by
  unfold getTimeFromPosition
  apply dateFromMinutes_of_nonneg
  rw [pixelsToMinutes_id]
  exact snapToGrid_nonneg _ h

/-- Snapping the height floored at `SNAP_MINUTES` pixels is the same as
flooring the snapped duration at `SNAP_MINUTES` minutes. -/
theorem snapToGrid_pixelsToMinutes_max (x : ℤ) :
    snapToGrid (pixelsToMinutes (max SNAP_MINUTES x))
      = max SNAP_MINUTES (snapToGrid (pixelsToMinutes x)) := by
  rw [pixelsToMinutes_id, pixelsToMinutes_id]
  have h15 : snapToGrid SNAP_MINUTES = SNAP_MINUTES := by decide
  rcases le_total SNAP_MINUTES x with h | h
  · rw [max_eq_right h,
      max_eq_right ((le_of_eq h15.symm).trans (snapToGrid_mono h))]
  · rw [max_eq_left h,
      max_eq_left ((snapToGrid_mono h).trans (le_of_eq h15))]
    exact h15

/-- If some candidate column is overlap-free, the column the loop returns is
overlap-free. -/
theorem findAvailableColumnGo_free (blocks : List TimeBlock) (s e : ℤ) :
    ∀ cs : List ℤ, (∃ c ∈ cs, hasOverlapInColumn blocks c s e = false) →
      hasOverlapInColumn blocks (findAvailableColumnGo blocks s e cs) s e
        = false := by
  intro cs
  induction cs with
  | nil => rintro ⟨c, hc, _⟩; simp at hc
  | cons c cs ih =>
    rintro ⟨d, hd, hdf⟩
    by_cases hc : hasOverlapInColumn blocks c s e = true
    · simp only [findAvailableColumnGo, if_pos hc]
      apply ih
      rcases List.mem_cons.1 hd with rfl | hmem
      · rw [hc] at hdf; cases hdf
      · exact ⟨d, hmem, hdf⟩
    · simp only [findAvailableColumnGo, if_neg hc]
      simpa using hc

theorem columnCandidates_eq : columnCandidates = [0, 1, 2, 3] := by decide

theorem findAvailableColumnGo_cons_pos {blocks : List TimeBlock} {s e c : ℤ}
    {cs : List ℤ} (h : hasOverlapInColumn blocks c s e = true) :
    findAvailableColumnGo blocks s e (c :: cs)
      = findAvailableColumnGo blocks s e cs := by
  simp only [findAvailableColumnGo]
  rw [if_pos h]

theorem findAvailableColumnGo_cons_neg {blocks : List TimeBlock} {s e c : ℤ}
    {cs : List ℤ} (h : ¬ hasOverlapInColumn blocks c s e = true) :
    findAvailableColumnGo blocks s e (c :: cs) = c := by
  simp only [findAvailableColumnGo]
  rw [if_neg h]

/-- The source's column finder returns the first lane in `0..MAX_COLUMNS-1`
with no interval overlap, whenever some lane in range is overlap-free: the
returned lane is overlap-free and every smaller lane overlaps. -/
theorem findAvailableColumn_spec (blocks : List TimeBlock) (s e : ℤ)
    (hfree : ∃ c, 0 ≤ c ∧ c < MAX_COLUMNS ∧
      hasOverlapInColumn blocks c s e = false) :
    hasOverlapInColumn blocks (findAvailableColumn blocks s e) s e = false ∧
    ∀ c, 0 ≤ c → c < findAvailableColumn blocks s e →
      hasOverlapInColumn blocks c s e = true := by
  obtain ⟨c, hc0, hc4, hcf⟩ := hfree
  have hM : MAX_COLUMNS = 4 := rfl
  have hmem : c ∈ columnCandidates := by
    rw [columnCandidates_eq]
    have : c = 0 ∨ c = 1 ∨ c = 2 ∨ c = 3 := by omega
    rcases this with rfl | rfl | rfl | rfl <;> simp
  refine ⟨?_, ?_⟩
  · rw [findAvailableColumn]
    exact findAvailableColumnGo_free blocks s e columnCandidates ⟨c, hmem, hcf⟩
  · rw [findAvailableColumn, columnCandidates_eq]
    by_cases h0 : hasOverlapInColumn blocks 0 s e = true
    · by_cases h1 : hasOverlapInColumn blocks 1 s e = true
      · by_cases h2 : hasOverlapInColumn blocks 2 s e = true
        · by_cases h3 : hasOverlapInColumn blocks 3 s e = true
          · exfalso
            have hc' : c = 0 ∨ c = 1 ∨ c = 2 ∨ c = 3 := by omega
            rcases hc' with rfl | rfl | rfl | rfl <;> simp_all
          · rw [findAvailableColumnGo_cons_pos h0,
              findAvailableColumnGo_cons_pos h1,
              findAvailableColumnGo_cons_pos h2,
              findAvailableColumnGo_cons_neg h3]
            intro c' hc'0 hc'3
            have hcs : c' = 0 ∨ c' = 1 ∨ c' = 2 := by omega
            rcases hcs with rfl | rfl | rfl <;> assumption
        · rw [findAvailableColumnGo_cons_pos h0,
            findAvailableColumnGo_cons_pos h1,
            findAvailableColumnGo_cons_neg h2]
          intro c' hc'0 hc'2
          have hcs : c' = 0 ∨ c' = 1 := by omega
          rcases hcs with rfl | rfl <;> assumption
      · rw [findAvailableColumnGo_cons_pos h0,
          findAvailableColumnGo_cons_neg h1]
        intro c' hc'0 hc'1
        have hcs : c' = 0 := by omega
        rw [hcs]; exact h0
    · rw [findAvailableColumnGo_cons_neg h0]
      intro c' hc'0 hc'lt
      omega

/-- When every lane in range overlaps, the loop falls through and returns 0. -/
theorem findAvailableColumn_all_busy (blocks : List TimeBlock) (s e : ℤ)
    (hall : ∀ c, 0 ≤ c → c < MAX_COLUMNS →
      hasOverlapInColumn blocks c s e = true) :
    findAvailableColumn blocks s e = 0 := by
  have h0 := hall 0 (by omega) (by decide)
  have h1 := hall 1 (by omega) (by decide)
  have h2 := hall 2 (by omega) (by decide)
  have h3 := hall 3 (by omega) (by decide)
  rw [findAvailableColumn, columnCandidates_eq,
    findAvailableColumnGo_cons_pos h0, findAvailableColumnGo_cons_pos h1,
    findAvailableColumnGo_cons_pos h2, findAvailableColumnGo_cons_pos h3]
  rfl

theorem find?_id_eq {blocks : List TimeBlock} {blockId : String}
    {b : TimeBlock}
    (h : blocks.find? (fun x => x.id == blockId) = some b) : b.id = blockId := by
  have hp := List.find?_some h
  simpa using hp

/-- Concrete block fixture for witnesses and counterexamples: a block exactly
as `createBlock` produces it, with the given id, interval and column. -/
def sampleBlock (i : String) (s e c : ℤ) : TimeBlock :=
  { id := i, title := "New Block", start := s, «end» := e, description := none,
    location := none, color := "c", column := c, prepTime := none,
    assignedMovers := [] }

/-- With no drag in progress, `createBlock` appends exactly the block built
from the click position. -/
theorem createBlock_false_eq (blocks : List TimeBlock) (newId : String)
    (clickY gridTop : ℤ) :
    createBlock blocks false newId clickY gridTop
      = blocks ++
        [{ id := newId
           title := "New Block"
           start := getTimeFromPosition clickY gridTop
           «end» := getTimeFromPosition clickY gridTop + 60
           description := none
           location := none
           color := TIME_BLOCK_COLORS.getD
             (blocks.length % TIME_BLOCK_COLORS.length) ""
           column := findAvailableColumn blocks
             (getTimeFromPosition clickY gridTop)
             (getTimeFromPosition clickY gridTop + 60)
           prepTime := none
           assignedMovers := [] }] := rfl

/-- C3: a grid click at vertical offset `clickY` (no drag in progress) adds
exactly one block: start is the snapped pixel-to-minute conversion of the
offset from the grid top, end is start plus 60 minutes, the column is the
first lane in `0..MAX_COLUMNS-1` whose blocks do not overlap the candidate
interval (the returned lane is overlap-free and all smaller lanes are busy,
whenever a free lane exists), and the color is the palette entry indexed by
the block count before creation modulo the palette size. -/
theorem createBlock_adds_snapped_block (blocks : List TimeBlock)
    (newId : String) (clickY gridTop : ℤ) (hy : 0 ≤ clickY - gridTop) (s : ℤ)
    (hs : s = snapToGrid (pixelsToMinutes (clickY - gridTop))) :
    createBlock blocks false newId clickY gridTop
      = blocks ++
        [{ id := newId
           title := "New Block"
           start := s
           «end» := s + 60
           description := none
           location := none
           color := TIME_BLOCK_COLORS.getD
             (blocks.length % TIME_BLOCK_COLORS.length) ""
           column := findAvailableColumn blocks s (s + 60)
           prepTime := none
           assignedMovers := [] }] ∧
    ((∃ c, 0 ≤ c ∧ c < MAX_COLUMNS ∧
        hasOverlapInColumn blocks c s (s + 60) = false) →
      hasOverlapInColumn blocks (findAvailableColumn blocks s (s + 60)) s
          (s + 60) = false ∧
      ∀ c, 0 ≤ c → c < findAvailableColumn blocks s (s + 60) →
        hasOverlapInColumn blocks c s (s + 60) = true) := by
  have hgt : getTimeFromPosition clickY gridTop = s := by
    rw [getTimeFromPosition_of_nonneg _ _ hy, hs]
  constructor
  · rw [createBlock_false_eq, hgt]
  · intro hfree
    exact findAvailableColumn_spec blocks s (s + 60) hfree

/-- C3 scenario witness: a click at the pixel offset of 9:00 AM
(`9 * HOUR_HEIGHT = 540` pixels) on an empty grid creates the block
`[09:00, 10:00)` (minutes `[540, 600)`) in column 0, colored with the first
palette entry. -/
theorem createBlock_adds_snapped_block_witness :
    ((0 : ℤ) ≤ 540 - 0 ∧ (540 : ℤ) = snapToGrid (pixelsToMinutes (540 - 0))) ∧
    createBlock [] false "id9" 540 0
      = [{ id := "id9"
           title := "New Block"
           start := 540
           «end» := 600
           description := none
           location := none
           color := "rgba(59, 130, 246, 0.9)"
           column := 0
           prepTime := none
           assignedMovers := [] }] :=
  ⟨⟨by decide, by decide⟩,
    (createBlock_adds_snapped_block [] "id9" 540 0 (by decide) 540
      (by decide)).1⟩

/-- C1 counterexample: the per-lane non-overlap invariant is not preserved by
every create and move.  Left conjunct: a move drag of block `b` one lane to
the left lands it in column 0 on top of block `a` — the move branch performs
no overlap check.  Right conjunct: with all four lanes occupied over
`[0, 60)`, a create is forced into lane 0 and overlaps the block already
there. -/
theorem laneInvariant_not_preserved_counterexample :
    (laneInvariant [sampleBlock "a" 0 60 0, sampleBlock "b" 0 60 1] ∧
      ¬ laneInvariant (moveUpdate
        [sampleBlock "a" 0 60 0, sampleBlock "b" 0 60 1]
        "b" 1 0 210 0 0 0 0 1440 60)) ∧
    (laneInvariant [sampleBlock "a0" 0 60 0, sampleBlock "a1" 0 60 1,
        sampleBlock "a2" 0 60 2, sampleBlock "a3" 0 60 3] ∧
      ¬ laneInvariant (createBlock
        [sampleBlock "a0" 0 60 0, sampleBlock "a1" 0 60 1,
         sampleBlock "a2" 0 60 2, sampleBlock "a3" 0 60 3]
        false "n" 0 0)) := by
  decide

/-- C1 amended: creation preserves the per-lane non-overlap invariant
whenever some lane in `[0, MAX_COLUMNS)` is overlap-free for the candidate
one-hour interval; when no lane is free the block is forced into lane 0 and
may overlap, and moves are not overlap-checked at all. -/
theorem createBlock_preserves_laneInvariant_of_free_lane
    (blocks : List TimeBlock) (newId : String) (clickY gridTop s : ℤ)
    (hs : s = getTimeFromPosition clickY gridTop)
    (hinv : laneInvariant blocks)
    (hfree : ∃ c, 0 ≤ c ∧ c < MAX_COLUMNS ∧
      hasOverlapInColumn blocks c s (s + 60) = false) :
    laneInvariant (createBlock blocks false newId clickY gridTop) := by
  rw [createBlock_false_eq, ← hs]
  unfold laneInvariant
  rw [List.pairwise_append]
  refine ⟨hinv, by simp, ?_⟩
  intro a ha nb hnb
  rw [List.mem_singleton] at hnb
  subst hnb
  have hnc := (findAvailableColumn_spec blocks s (s + 60) hfree).1
  rw [hasOverlapInColumn, List.any_eq_false] at hnc
  have hna := hnc a ha
  simp only [decide_eq_true_eq] at hna
  intro hcol hover
  exact hna ⟨hcol, hover.2, hover.1⟩

/-- C1 amended witness: with lane 0 free over the candidate interval
`[60, 120)`, the create lands in a free lane and the invariant is kept. -/
theorem createBlock_preserves_laneInvariant_witness :
    ((60 : ℤ) = getTimeFromPosition 60 0 ∧
     laneInvariant [sampleBlock "a" 0 60 0, sampleBlock "b" 120 180 1] ∧
     (∃ c, 0 ≤ c ∧ c < MAX_COLUMNS ∧
        hasOverlapInColumn [sampleBlock "a" 0 60 0, sampleBlock "b" 120 180 1]
          c 60 (60 + 60) = false)) ∧
    laneInvariant (createBlock
      [sampleBlock "a" 0 60 0, sampleBlock "b" 120 180 1] false "n" 60 0) :=
  ⟨⟨by decide, by decide, ⟨0, by decide, by decide, by decide⟩⟩,
    createBlock_preserves_laneInvariant_of_free_lane _ "n" 60 0 60 (by decide)
      (by decide) ⟨0, by decide, by decide, by decide⟩⟩

/-- C10: when every lane `0..MAX_COLUMNS-1` already holds a block overlapping
the candidate one-hour interval, `findAvailableColumn` falls through to 0 and
`createBlock` still appends the new block, in lane 0: a grid click is never
refused for lack of a free lane and always adds exactly one block. -/
theorem createBlock_forced_into_lane_zero (blocks : List TimeBlock)
    (newId : String) (clickY gridTop s : ℤ)
    (hs : s = getTimeFromPosition clickY gridTop)
    (hall : ∀ c, 0 ≤ c → c < MAX_COLUMNS →
      hasOverlapInColumn blocks c s (s + 60) = true) :
    findAvailableColumn blocks s (s + 60) = 0 ∧
    ∃ nb, createBlock blocks false newId clickY gridTop = blocks ++ [nb] ∧
      nb.column = 0 ∧ nb.start = s ∧ nb.«end» = s + 60 ∧
      (createBlock blocks false newId clickY gridTop).length
        = blocks.length + 1 := by
  have h0 := findAvailableColumn_all_busy blocks s (s + 60) hall
  refine ⟨h0, ?_⟩
  rw [createBlock_false_eq, ← hs]
  exact ⟨_, rfl, h0, rfl, rfl, by simp⟩

/-- C10 witness: four blocks fill all lanes over `[0, 60)`; a click mapping to
the same hour still creates a block, in lane 0. -/
theorem createBlock_forced_into_lane_zero_witness :
    ((0 : ℤ) = getTimeFromPosition 0 0 ∧
     ∀ c, 0 ≤ c → c < MAX_COLUMNS →
       hasOverlapInColumn [sampleBlock "a0" 0 60 0, sampleBlock "a1" 0 60 1,
         sampleBlock "a2" 0 60 2, sampleBlock "a3" 0 60 3] c 0 (0 + 60)
         = true) ∧
    (findAvailableColumn [sampleBlock "a0" 0 60 0, sampleBlock "a1" 0 60 1,
        sampleBlock "a2" 0 60 2, sampleBlock "a3" 0 60 3] 0 (0 + 60) = 0 ∧
     ∃ nb, createBlock [sampleBlock "a0" 0 60 0, sampleBlock "a1" 0 60 1,
           sampleBlock "a2" 0 60 2, sampleBlock "a3" 0 60 3] false "n" 0 0
         = [sampleBlock "a0" 0 60 0, sampleBlock "a1" 0 60 1,
            sampleBlock "a2" 0 60 2, sampleBlock "a3" 0 60 3] ++ [nb] ∧
       nb.column = 0 ∧ nb.start = 0 ∧ nb.«end» = 0 + 60 ∧
       (createBlock [sampleBlock "a0" 0 60 0, sampleBlock "a1" 0 60 1,
           sampleBlock "a2" 0 60 2, sampleBlock "a3" 0 60 3]
           false "n" 0 0).length
         = (List.length [sampleBlock "a0" 0 60 0, sampleBlock "a1" 0 60 1,
             sampleBlock "a2" 0 60 2, sampleBlock "a3" 0 60 3]) + 1) :=
  ⟨⟨by decide, by
      intro c h1 h2
      have hM : MAX_COLUMNS = 4 := rfl
      have hc : c = 0 ∨ c = 1 ∨ c = 2 ∨ c = 3 := by omega
      rcases hc with rfl | rfl | rfl | rfl <;> decide⟩,
    createBlock_forced_into_lane_zero _ "n" 0 0 0 (by decide) (by
      intro c h1 h2
      have hM : MAX_COLUMNS = 4 := rfl
      have hc : c = 0 ∨ c = 1 ∨ c = 2 ∨ c = 3 := by omega
      rcases hc with rfl | rfl | rfl | rfl <;> decide)⟩

/-- C4: a move drag preserves the dragged block's duration (`end` is
recomputed as the new start plus the previous duration) and, when a
`prepTime` exists, keeps its `duration` and re-anchors its `start` so that
`prepTime.start + prepTime.duration` equals the new block start. -/
theorem moveUpdate_preserves_duration_and_prep (blocks : List TimeBlock)
    (blockId : String) (icol itop ix iy cx cy gtop gh eh : ℤ) (b : TimeBlock)
    (hfind : blocks.find? (fun x => x.id == blockId) = some b) :
    ∃ b' ∈ moveUpdate blocks blockId icol itop ix iy cx cy gtop gh eh,
      b'.id = b.id ∧ b'.«end» - b'.start = b.«end» - b.start ∧
      ∀ p, b.prepTime = some p → ∃ p', b'.prepTime = some p' ∧
        p'.duration = p.duration ∧ p'.start + p'.duration = b'.start := by
  have hmem : b ∈ blocks := List.mem_of_find?_eq_some hfind
  unfold moveUpdate
  rw [hfind]
  refine ⟨_, List.mem_map_of_mem _ hmem, ?_⟩
  have hself : (b.id == b.id) = true := beq_self_eq_true b.id
  rw [if_pos hself]
  refine ⟨rfl, by dsimp only; ring, ?_⟩
  intro p hp
  dsimp only
  rw [hp]
  exact ⟨_, rfl, rfl, by dsimp only; ring⟩

/-- C4 witness: moving a one-hour block with a 15-minute prep window down by
60 pixels keeps the duration at 60 and re-anchors the prep window to end at
the new start. -/
theorem moveUpdate_preserves_duration_and_prep_witness :
    ([{ sampleBlock "m" 120 180 0 with prepTime := some ⟨105, 15⟩ }].find?
        (fun x => x.id == "m")
      = some { sampleBlock "m" 120 180 0 with prepTime := some ⟨105, 15⟩ }) ∧
    ∃ b' ∈ moveUpdate [{ sampleBlock "m" 120 180 0 with
        prepTime := some ⟨105, 15⟩ }] "m" 0 120 0 0 0 60 0 1440 60,
      b'.id = ({ sampleBlock "m" 120 180 0 with
        prepTime := some ⟨105, 15⟩ } : TimeBlock).id ∧
      b'.«end» - b'.start
        = ({ sampleBlock "m" 120 180 0 with
            prepTime := some ⟨105, 15⟩ } : TimeBlock).«end»
          - ({ sampleBlock "m" 120 180 0 with
              prepTime := some ⟨105, 15⟩ } : TimeBlock).start ∧
      ∀ p, ({ sampleBlock "m" 120 180 0 with
          prepTime := some ⟨105, 15⟩ } : TimeBlock).prepTime = some p →
        ∃ p', b'.prepTime = some p' ∧ p'.duration = p.duration ∧
          p'.start + p'.duration = b'.start :=
  ⟨by decide,
    moveUpdate_preserves_duration_and_prep _ "m" 0 120 0 0 0 60 0 1440 60 _
      (by decide)⟩

/-- C5: a resize drag changes only `end` (id, start, title, column, prep and
movers unchanged): the new duration is `snap(pixelsToMinutes(initialHeight +
deltaY))` floored at `SNAP_MINUTES`, hence the resized block always satisfies
`SNAP_MINUTES ≤ end - start` and never `end ≤ start`. -/
theorem resizeUpdate_spec (blocks : List TimeBlock) (blockId : String)
    (ih iy cy : ℤ) (b : TimeBlock)
    (hfind : blocks.find? (fun x => x.id == blockId) = some b) (d : ℤ)
    (hd : d = max SNAP_MINUTES (snapToGrid (pixelsToMinutes (ih + (cy - iy))))) :
    ∃ b' ∈ resizeUpdate blocks blockId ih iy cy,
      b'.id = b.id ∧ b'.start = b.start ∧ b'.title = b.title ∧
      b'.column = b.column ∧ b'.prepTime = b.prepTime ∧
      b'.assignedMovers = b.assignedMovers ∧
      b'.«end» = b.start + d ∧ SNAP_MINUTES ≤ b'.«end» - b'.start := by
  have hmem : b ∈ blocks := List.mem_of_find?_eq_some hfind
  have hdm : snapToGrid (pixelsToMinutes (max SNAP_MINUTES (ih + (cy - iy))))
      = d := by
    rw [snapToGrid_pixelsToMinutes_max, hd]
  have hdlb : SNAP_MINUTES ≤ d := hd ▸ le_max_left _ _
  unfold resizeUpdate
  rw [hfind]
  refine ⟨_, List.mem_map_of_mem _ hmem, ?_⟩
  have hself : (b.id == b.id) = true := beq_self_eq_true b.id
  rw [if_pos hself]
  refine ⟨rfl, rfl, rfl, rfl, rfl, rfl, ?_, ?_⟩
  · dsimp only
    rw [hdm]
  · dsimp only
    rw [hdm]
    omega

/-- C5 witness: with an initial rendered height of 60 pixels and the pointer
dragged 45 pixels down, the resized block keeps its start and gets duration
`snap(105) = 105` minutes. -/
theorem resizeUpdate_spec_witness :
    (([sampleBlock "r" 540 600 0].find? (fun x => x.id == "r"))
      = some (sampleBlock "r" 540 600 0)) ∧
    ((105 : ℤ)
      = max SNAP_MINUTES (snapToGrid (pixelsToMinutes (60 + (45 - 0))))) ∧
    ∃ b' ∈ resizeUpdate [sampleBlock "r" 540 600 0] "r" 60 0 45,
      b'.id = (sampleBlock "r" 540 600 0).id ∧
      b'.start = (sampleBlock "r" 540 600 0).start ∧
      b'.title = (sampleBlock "r" 540 600 0).title ∧
      b'.column = (sampleBlock "r" 540 600 0).column ∧
      b'.prepTime = (sampleBlock "r" 540 600 0).prepTime ∧
      b'.assignedMovers = (sampleBlock "r" 540 600 0).assignedMovers ∧
      b'.«end» = (sampleBlock "r" 540 600 0).start + 105 ∧
      SNAP_MINUTES ≤ b'.«end» - b'.start :=
  ⟨by decide, by decide,
    resizeUpdate_spec _ "r" 60 0 45 _ (by decide) 105 (by decide)⟩

/-- C6: a prep-time drag leaves start and id unchanged and sets the prep
window from the clamped, snapped drag distance `d`: when `d = 0` the
`prepTime` attribute is removed entirely (absent, not a zero-length
interval); when `d ≠ 0` the block's `prepTime` has duration `d` and ends
exactly at the block's start. -/
theorem prepUpdate_spec (blocks : List TimeBlock) (blockId : String)
    (iy cy : ℤ) (b : TimeBlock)
    (hfind : blocks.find? (fun x => x.id == blockId) = some b) (d : ℤ)
    (hd : d = max 0 (min (minutesSinceMidnight b.start)
      (snapToGrid (pixelsToMinutes (cy - iy))))) :
    ∃ b' ∈ prepUpdate blocks blockId iy cy,
      b'.id = b.id ∧ b'.start = b.start ∧
      (d = 0 → b'.prepTime = none) ∧
      (d ≠ 0 → ∃ p, b'.prepTime = some p ∧ p.duration = d ∧
        p.start + p.duration = b'.start) := by
  have hmem : b ∈ blocks := List.mem_of_find?_eq_some hfind
  unfold prepUpdate
  rw [hfind]
  refine ⟨_, List.mem_map_of_mem _ hmem, ?_⟩
  have hself : (b.id == b.id) = true := beq_self_eq_true b.id
  rw [if_pos hself, ← hd]
  by_cases hz : d = 0
  · rw [if_pos hz]
    exact ⟨rfl, rfl, fun _ => rfl, fun hnz => absurd hz hnz⟩
  · rw [if_neg hz]
    exact ⟨rfl, rfl, fun h0 => absurd h0 hz,
      fun _ => ⟨_, rfl, rfl, by dsimp only; ring⟩⟩

/-- C6 witness, both halves at concrete inputs: dragging the prep handle of a
9:00 block to a distance mapping to 0 minutes removes `prepTime` entirely
(even though the block had one), and a 30-pixel drag yields a 30-minute prep
window ending at the block's start. -/
theorem prepUpdate_spec_witness :
    (([{ sampleBlock "p" 540 600 0 with prepTime := some ⟨510, 30⟩ }].find?
        (fun x => x.id == "p")
      = some { sampleBlock "p" 540 600 0 with prepTime := some ⟨510, 30⟩ }) ∧
     ((0 : ℤ) = max 0 (min (minutesSinceMidnight
        ({ sampleBlock "p" 540 600 0 with
           prepTime := some ⟨510, 30⟩ } : TimeBlock).start)
        (snapToGrid (pixelsToMinutes (0 - 0)))) ∧
      (30 : ℤ) = max 0 (min (minutesSinceMidnight
        ({ sampleBlock "p" 540 600 0 with
           prepTime := some ⟨510, 30⟩ } : TimeBlock).start)
        (snapToGrid (pixelsToMinutes (30 - 0)))))) ∧
    (∃ b' ∈ prepUpdate [{ sampleBlock "p" 540 600 0 with
        prepTime := some ⟨510, 30⟩ }] "p" 0 0,
      b'.id = ({ sampleBlock "p" 540 600 0 with
        prepTime := some ⟨510, 30⟩ } : TimeBlock).id ∧
      b'.start = ({ sampleBlock "p" 540 600 0 with
        prepTime := some ⟨510, 30⟩ } : TimeBlock).start ∧
      ((0 : ℤ) = 0 → b'.prepTime = none) ∧
      ((0 : ℤ) ≠ 0 → ∃ p, b'.prepTime = some p ∧ p.duration = 0 ∧
        p.start + p.duration = b'.start)) ∧
    ∃ b' ∈ prepUpdate [{ sampleBlock "p" 540 600 0 with
        prepTime := some ⟨510, 30⟩ }] "p" 0 30,
      b'.id = ({ sampleBlock "p" 540 600 0 with
        prepTime := some ⟨510, 30⟩ } : TimeBlock).id ∧
      b'.start = ({ sampleBlock "p" 540 600 0 with
        prepTime := some ⟨510, 30⟩ } : TimeBlock).start ∧
      ((30 : ℤ) = 0 → b'.prepTime = none) ∧
      ((30 : ℤ) ≠ 0 → ∃ p, b'.prepTime = some p ∧ p.duration = 30 ∧
        p.start + p.duration = b'.start) :=
  ⟨⟨by decide, by decide, by decide⟩,
    prepUpdate_spec _ "p" 0 0 _ (by decide) 0 (by decide),
    prepUpdate_spec _ "p" 0 30 _ (by decide) 30 (by decide)⟩

/-- C7: drag interactions with arbitrary (also out-of-range) pointer
coordinates clamp instead of failing: the engine is total, after a move the
dragged block's column lies in `[0, MAX_COLUMNS)`, after a prep drag the prep
duration lies in `[0, minutesSinceMidnight start]`, and both handlers return
a block list of the same length (no block lost, no error state). -/
theorem interaction_clamp_spec (blocks : List TimeBlock) (blockId : String)
    (icol itop ix iy cx cy gtop gh eh piy pcy : ℤ) (b : TimeBlock)
    (hfind : blocks.find? (fun x => x.id == blockId) = some b) :
    (∀ b' ∈ moveUpdate blocks blockId icol itop ix iy cx cy gtop gh eh,
       b'.id = blockId → 0 ≤ b'.column ∧ b'.column < MAX_COLUMNS) ∧
    (∃ b' ∈ prepUpdate blocks blockId piy pcy, b'.id = blockId ∧
       ∀ p, b'.prepTime = some p → 0 ≤ p.duration ∧
         p.duration ≤ minutesSinceMidnight b'.start) ∧
    (moveUpdate blocks blockId icol itop ix iy cx cy gtop gh eh).length
      = blocks.length ∧
    (prepUpdate blocks blockId piy pcy).length = blocks.length := by
  have hmem : b ∈ blocks := List.mem_of_find?_eq_some hfind
  have hbid : b.id = blockId := find?_id_eq hfind
  have hself : (b.id == b.id) = true := beq_self_eq_true b.id
  refine ⟨?_, ?_, ?_, ?_⟩
  · intro b' hb' hid
    unfold moveUpdate at hb'
    rw [hfind] at hb'
    rcases List.mem_map.1 hb' with ⟨bb, hbb, rfl⟩
    by_cases hcond : (bb.id == b.id) = true
    · rw [if_pos hcond]
      dsimp only
      have hM : MAX_COLUMNS = 4 := rfl
      have hle : max 0 (min (MAX_COLUMNS - 1)
          (icol + jsRoundDiv (cx - ix) (BLOCK_WIDTH + COLUMN_GAP)))
          ≤ MAX_COLUMNS - 1 :=
        max_le (by decide) (min_le_left _ _)
      have hge : (0 : ℤ) ≤ max 0 (min (MAX_COLUMNS - 1)
          (icol + jsRoundDiv (cx - ix) (BLOCK_WIDTH + COLUMN_GAP))) :=
        le_max_left _ _
      omega
    · rw [if_neg hcond] at hid ⊢
      exfalso
      rw [hid, ← hbid] at hcond
      exact hcond hself
  · unfold prepUpdate
    rw [hfind]
    refine ⟨_, List.mem_map_of_mem _ hmem, ?_⟩
    rw [if_pos hself]
    have hmax : (0 : ℤ) ≤ minutesSinceMidnight b.start :=
      Int.emod_nonneg _ (by decide)
    by_cases hz : max 0 (min (minutesSinceMidnight b.start)
        (snapToGrid (pixelsToMinutes (pcy - piy)))) = 0
    · rw [if_pos hz]
      exact ⟨hbid, fun p hp => Option.noConfusion hp⟩
    · rw [if_neg hz]
      refine ⟨hbid, ?_⟩
      intro p hp
      dsimp only at hp
      cases hp
      constructor
      · exact le_max_left _ _
      · exact max_le hmax (min_le_left _ _)
  · unfold moveUpdate
    rw [hfind]
    exact List.length_map _ _
  · unfold prepUpdate
    rw [hfind]
    exact List.length_map _ _

/-- C7 witness: a move drag far off-grid (pointer 100000 pixels right and
50000 below, well outside the day) still yields a valid clamped column in
`[0, 4)` for the dragged block, and a huge prep drag clamps the prep duration
to the lead time before the block's 9:00 start. -/
theorem interaction_clamp_spec_witness :
    (([sampleBlock "x" 540 600 1].find? (fun x => x.id == "x"))
      = some (sampleBlock "x" 540 600 1)) ∧
    ((∀ b' ∈ moveUpdate [sampleBlock "x" 540 600 1] "x" 1 540 0 0 100000 50000
        0 1440 60, b'.id = "x" → 0 ≤ b'.column ∧ b'.column < MAX_COLUMNS) ∧
     (∃ b' ∈ prepUpdate [sampleBlock "x" 540 600 1] "x" 0 100000,
        b'.id = "x" ∧ ∀ p, b'.prepTime = some p → 0 ≤ p.duration ∧
          p.duration ≤ minutesSinceMidnight b'.start) ∧
     (moveUpdate [sampleBlock "x" 540 600 1] "x" 1 540 0 0 100000 50000
        0 1440 60).length = ([sampleBlock "x" 540 600 1] : List TimeBlock).length ∧
     (prepUpdate [sampleBlock "x" 540 600 1] "x" 0 100000).length
       = ([sampleBlock "x" 540 600 1] : List TimeBlock).length) :=
  ⟨by decide,
    interaction_clamp_spec _ "x" 1 540 0 0 100000 50000 0 1440 60 0 100000
      (sampleBlock "x" 540 600 1) (by decide)⟩

/-- C8: removing a mover from the roster removes exactly the movers with that
id from the roster, removes that id (and nothing else) from every block's
`assignedMovers`, and changes no other attribute of any block; afterwards no
block retains the removed id. -/
theorem removeMover_spec (movers : List Mover) (blocks : List TimeBlock)
    (moverId : String) :
    (∀ m, m ∈ removeMoverFromRoster movers moverId ↔
      (m ∈ movers ∧ ¬ m.id = moverId)) ∧
    (removeMoverFromBlocks blocks moverId).length = blocks.length ∧
    (∀ b ∈ blocks, ∃ b' ∈ removeMoverFromBlocks blocks moverId,
      b'.id = b.id ∧ b'.title = b.title ∧ b'.description = b.description ∧
      b'.location = b.location ∧ b'.start = b.start ∧ b'.«end» = b.«end» ∧
      b'.column = b.column ∧ b'.color = b.color ∧ b'.prepTime = b.prepTime ∧
      ∀ x, x ∈ b'.assignedMovers ↔ (x ∈ b.assignedMovers ∧ ¬ x = moverId)) ∧
    ∀ b' ∈ removeMoverFromBlocks blocks moverId,
      moverId ∉ b'.assignedMovers := by
  refine ⟨?_, List.length_map _ _, ?_, ?_⟩
  · intro m
    unfold removeMoverFromRoster
    rw [List.mem_filter]
    simp
  · intro b hb
    refine ⟨_, List.mem_map_of_mem _ hb, rfl, rfl, rfl, rfl, rfl, rfl, rfl,
      rfl, rfl, ?_⟩
    intro x
    dsimp only
    rw [List.mem_filter]
    simp
  · intro b' hb'
    rcases List.mem_map.1 hb' with ⟨bb, _, rfl⟩
    dsimp only
    rw [List.mem_filter]
    simp

/-- C8 witness: removing mover "2" from a two-mover roster with one block
referencing movers "1" and "2" prunes exactly "2" everywhere and keeps every
other attribute. -/
theorem removeMover_spec_witness :
    (∀ m, m ∈ removeMoverFromRoster
        [⟨"1", "Johnny", "#FF6B6B"⟩, ⟨"2", "Cristiani", "#4ECDC4"⟩] "2" ↔
      (m ∈ ([⟨"1", "Johnny", "#FF6B6B"⟩,
             ⟨"2", "Cristiani", "#4ECDC4"⟩] : List Mover) ∧ ¬ m.id = "2")) ∧
    (removeMoverFromBlocks
        [{ sampleBlock "w" 540 600 0 with assignedMovers := ["1", "2"] }]
        "2").length
      = ([{ sampleBlock "w" 540 600 0 with
            assignedMovers := ["1", "2"] }] : List TimeBlock).length ∧
    (∀ b ∈ ([{ sampleBlock "w" 540 600 0 with
        assignedMovers := ["1", "2"] }] : List TimeBlock),
      ∃ b' ∈ removeMoverFromBlocks
          [{ sampleBlock "w" 540 600 0 with assignedMovers := ["1", "2"] }] "2",
        b'.id = b.id ∧ b'.title = b.title ∧ b'.description = b.description ∧
        b'.location = b.location ∧ b'.start = b.start ∧ b'.«end» = b.«end» ∧
        b'.column = b.column ∧ b'.color = b.color ∧ b'.prepTime = b.prepTime ∧
        ∀ x, x ∈ b'.assignedMovers ↔ (x ∈ b.assignedMovers ∧ ¬ x = "2")) ∧
    ∀ b' ∈ removeMoverFromBlocks
        [{ sampleBlock "w" 540 600 0 with assignedMovers := ["1", "2"] }] "2",
      "2" ∉ b'.assignedMovers :=
  removeMover_spec [⟨"1", "Johnny", "#FF6B6B"⟩, ⟨"2", "Cristiani", "#4ECDC4"⟩]
    [{ sampleBlock "w" 540 600 0 with assignedMovers := ["1", "2"] }] "2"

/-- C9: on a duplicate-free `assignedMovers` draft (every reachable draft is
duplicate-free: blocks are created with `[]` and the toggle preserves
`Nodup`), toggling a mover id adds it when absent and removes it when
present, the result is again duplicate-free, and toggling twice restores the
original membership. -/
theorem toggleMover_spec (l : List String) (x : String) (hnd : l.Nodup) :
    (x ∉ l → x ∈ toggleMover l x) ∧
    (x ∈ l → x ∉ toggleMover l x) ∧
    (toggleMover l x).Nodup ∧
    (∀ y, y ∈ toggleMover (toggleMover l x) x ↔ y ∈ l) := by
  by_cases hx : x ∈ l
  · have ht : toggleMover l x = l.erase x := if_pos hx
    have hxe : x ∉ l.erase x := fun hc =>
      ((List.Nodup.mem_erase_iff hnd).1 hc).1 rfl
    have ht2 : toggleMover (l.erase x) x = l.erase x ++ [x] := if_neg hxe
    refine ⟨fun hc => absurd hx hc, fun _ => ht ▸ hxe, ?_, ?_⟩
    · rw [ht]
      exact hnd.erase x
    · intro y
      rw [ht, ht2, List.mem_append, List.mem_singleton]
      constructor
      · rintro (hy | rfl)
        · exact ((List.Nodup.mem_erase_iff hnd).1 hy).2
        · exact hx
      · intro hy
        by_cases hyx : y = x
        · exact Or.inr hyx
        · exact Or.inl ((List.Nodup.mem_erase_iff hnd).2 ⟨hyx, hy⟩)
  · have ht : toggleMover l x = l ++ [x] := if_neg hx
    have hxm : x ∈ l ++ [x] := List.mem_append_right _ (List.mem_singleton.2 rfl)
    have ht2 : toggleMover (l ++ [x]) x = (l ++ [x]).erase x := if_pos hxm
    have herase : (l ++ [x]).erase x = l := by
      rw [List.erase_append_right _ hx, List.erase_cons_head, List.append_nil]
    refine ⟨fun _ => ht ▸ hxm, fun hc => absurd hc hx, ?_, ?_⟩
    · rw [ht]
      refine List.Nodup.append hnd (List.nodup_singleton x) ?_
      intro a ha hb
      rw [List.mem_singleton] at hb
      subst hb
      exact hx ha
    · intro y
      rw [ht, ht2, herase]

/-- C9 witness: on the draft `["1", "2"]`, toggling "2" (present) removes it
and toggling twice restores the original membership. -/
theorem toggleMover_spec_witness :
    (["1", "2"] : List String).Nodup ∧
    (("2" ∉ (["1", "2"] : List String) → "2" ∈ toggleMover ["1", "2"] "2") ∧
     ("2" ∈ (["1", "2"] : List String) → "2" ∉ toggleMover ["1", "2"] "2") ∧
     (toggleMover ["1", "2"] "2").Nodup ∧
     (∀ y, y ∈ toggleMover (toggleMover ["1", "2"] "2") "2" ↔
       y ∈ (["1", "2"] : List String))) :=
  ⟨by decide, toggleMover_spec ["1", "2"] "2" (by decide)⟩

/-- C2 (code bug, failing input): open the editor on a block with no assigned
movers, toggle mover "1" once, press Cancel.  The claim (and the spec's
"Cancel/close discards the draft") requires the block set to be exactly as it
was when the editor opened; instead the block now carries `["1"]`, because
`toggleMover` mutates the `formState.assignedMovers` array in place and that
array is the very array object inside the block held by the `blocks` state
(`useState(block)` copies the reference).  "Done" does commit the draft by id
as claimed; only the Cancel path is broken by the shared mutation. -/
theorem editorCancel_after_toggle_leaks :
    editorCancel (applyEdits
        (openEditor [sampleBlock "b1" 540 600 0] (sampleBlock "b1" 540 600 0))
        [EditorEdit.toggleMoverEdit "1"])
      ≠ [sampleBlock "b1" 540 600 0] ∧
    ∃ b' ∈ editorCancel (applyEdits
        (openEditor [sampleBlock "b1" 540 600 0] (sampleBlock "b1" 540 600 0))
        [EditorEdit.toggleMoverEdit "1"]),
      b'.id = "b1" ∧ b'.assignedMovers = ["1"] := by
  decide

end MoveBuddy

